import Mathlib

/-!
Shallow embedding of the AUTO plugin core
(`src/inference-engine/src/auto_plugin/auto_plugin.cpp`).

Devices are identified by strings.  The per-device metric services offered
by the surrounding Core object (`GetMetric(FULL_DEVICE_NAME)`,
`GetMetric(OPTIMIZATION_CAPABILITIES)`, `QueryNetwork`) are modelled as
oracles returning `Except Unit _`: `.error ()` models a thrown C++
exception, `.ok` a successful answer.  Following the source, calls that
the C++ code does not wrap in `try/catch` propagate the error through the
`Except` monad, while calls inside `try { ... } catch (...) {}` blocks
swallow it.
-/

namespace AutoPlugin

/-- `pat` occurs at the start of `l`. -/
def leadsWithChars : List Char → List Char → Bool
  | [], _ => true
  | _ :: _, [] => false
  | a :: as, b :: bs => a == b && leadsWithChars as bs

/-- `pat` occurs somewhere inside `l`. -/
def hasInfixChars (l pat : List Char) : Bool :=
  match l with
  | [] => pat.isEmpty
  | c :: rest => leadsWithChars pat (c :: rest) || hasInfixChars rest pat

/-- `s.find(pat) == 0`: `s` starts with `pat`. -/
def startsWithStr (s pat : String) : Bool :=
  leadsWithChars pat.toList s.toList

/-- `s.find(pat) != std::string::npos`: `pat` occurs as a substring of `s`. -/
def containsSubstr (s pat : String) : Bool :=
  hasInfixChars s.toList pat.toList

/-- The metric services a device exposes through the Core object:
`fullName` models `GetMetric(item, FULL_DEVICE_NAME)` and `caps` models
`GetMetric(item, OPTIMIZATION_CAPABILITIES)`. -/
structure Oracle where
  fullName : String → Except Unit String
  caps : String → Except Unit (List String)

/-- An oracle on which every per-device query succeeds. -/
abbrev Oracle.ofTotal (fn : String → String) (cp : String → List String) : Oracle :=
  { fullName := fun d => .ok (fn d)
    caps := fun d => .ok (cp d) }

/-- The five tier buckets built by the classification loop of
`AutoInferencePlugin::SelectDevice` (lines 276-304). -/
structure Tiers where
  CPU : List String
  dGPU : List String
  iGPU : List String
  MYRIAD : List String
  VPUX : List String
deriving DecidableEq, Repr

/-- The classification loop of `SelectDevice` (lines 282-304): each device is
tested against the identifier-prefix chain CPU, MYRIAD, VPUX, GPU; a
GPU-prefixed device is routed by its full device name (a per-device metric
query that may fail) to the iGPU or dGPU bucket, or dropped when the full
name contains neither marker; devices matching no tested identifier are
dropped. -/
def classifyDevices (o : Oracle) : List String → Except Unit Tiers
  | [] => .ok ⟨[], [], [], [], []⟩
  | item :: rest =>
    if startsWithStr item "CPU" then
      (classifyDevices o rest).map fun t => { t with CPU := item :: t.CPU }
    else if startsWithStr item "MYRIAD" then
      (classifyDevices o rest).map fun t => { t with MYRIAD := item :: t.MYRIAD }
    else if startsWithStr item "VPUX" then
      (classifyDevices o rest).map fun t => { t with VPUX := item :: t.VPUX }
    else if startsWithStr item "GPU" then
      match o.fullName item with
      | .error e => .error e
      | .ok gpuFullDeviceName =>
        if containsSubstr gpuFullDeviceName "iGPU" then
          (classifyDevices o rest).map fun t => { t with iGPU := item :: t.iGPU }
        else if containsSubstr gpuFullDeviceName "dGPU" then
          (classifyDevices o rest).map fun t => { t with dGPU := item :: t.dGPU }
        else
          classifyDevices o rest
    else
      classifyDevices o rest

/-- Pure image of the classification loop under an always-successful
full-name oracle. -/
def tiersOf (fn : String → String) : List String → Tiers
  | [] => ⟨[], [], [], [], []⟩
  | item :: rest =>
    if startsWithStr item "CPU" then
      { tiersOf fn rest with CPU := item :: (tiersOf fn rest).CPU }
    else if startsWithStr item "MYRIAD" then
      { tiersOf fn rest with MYRIAD := item :: (tiersOf fn rest).MYRIAD }
    else if startsWithStr item "VPUX" then
      { tiersOf fn rest with VPUX := item :: (tiersOf fn rest).VPUX }
    else if startsWithStr item "GPU" then
      if containsSubstr (fn item) "iGPU" then
        { tiersOf fn rest with iGPU := item :: (tiersOf fn rest).iGPU }
      else if containsSubstr (fn item) "dGPU" then
        { tiersOf fn rest with dGPU := item :: (tiersOf fn rest).dGPU }
      else
        tiersOf fn rest
    else
      tiersOf fn rest

/-- The bucket a single device is routed to by the classification chain
(`.dropped` when the device ends up in no bucket). -/
inductive Bucket
  | cpu | dgpu | igpu | myriad | vpux | dropped
deriving DecidableEq, Repr

/-- Classification of one device, as a function, mirroring the chain of
prefix tests of `SelectDevice` (the full-name query assumed successful). -/
def classifyOne (fn : String → String) (d : String) : Bucket :=
  if startsWithStr d "CPU" then .cpu
  else if startsWithStr d "MYRIAD" then .myriad
  else if startsWithStr d "VPUX" then .vpux
  else if startsWithStr d "GPU" then
    if containsSubstr (fn d) "iGPU" then .igpu
    else if containsSubstr (fn d) "dGPU" then .dgpu
    else .dropped
  else .dropped

/-- One capability-scan loop of `SelectDevice` (e.g. lines 312-318): walk a
tier in order, query each member's optimization capabilities (a metric query
that may fail and is not caught), and return the first member whose
capability list contains the wanted precision. -/
def findCapable (o : Oracle) (networkPrecision : String) :
    List String → Except Unit (Option String)
  | [] => .ok none
  | item :: rest =>
    match o.caps item with
    | .error e => .error e
    | .ok capability =>
      if capability.contains networkPrecision then .ok (some item)
      else findCapable o networkPrecision rest

/-- The tier consulted by one pass of the `else if` chain of lines 311-343:
only the first non-empty accelerator tier, in the fixed priority order
dGPU, VPUX, iGPU, MYRIAD, is ever scanned. -/
def firstAccelTier (t : Tiers) : List String :=
  if !t.dGPU.isEmpty then t.dGPU
  else if !t.VPUX.isEmpty then t.VPUX
  else if !t.iGPU.isEmpty then t.iGPU
  else if !t.MYRIAD.isEmpty then t.MYRIAD
  else []

/-- One pass of the tier walk: scan the first non-empty accelerator tier for
a member supporting `networkPrecision`. -/
def tierWalk (o : Oracle) (t : Tiers) (networkPrecision : String) :
    Except Unit (Option String) :=
  findCapable o networkPrecision (firstAccelTier t)

/-- Outcomes of `SelectDevice`: `notFound` models `IE_THROW(NotFound)`
(lines 270 and 307), `cannotSelect` the generic
`IE_THROW() << "Cannot select any device"` (line 383), and `queryFailure` a
per-device metric query exception propagating out of `SelectDevice`
(none of its `GetMetric` calls is inside a `try/catch`). -/
inductive SelectError
  | notFound | cannotSelect | queryFailure
deriving DecidableEq, Repr

/-- `AutoInferencePlugin::SelectDevice` (lines 268-386). -/
def selectDevice (o : Oracle) (metaDevices : List String)
    (networkPrecision : String) : Except SelectError String :=
  match metaDevices with
  | [] => .error .notFound
  | [d] => .ok d
  | a :: b :: rest =>
    match classifyDevices o (a :: b :: rest) with
    | .error _ => .error .queryFailure
    | .ok t =>
      if t.CPU.isEmpty && t.dGPU.isEmpty && t.iGPU.isEmpty
          && t.MYRIAD.isEmpty && t.VPUX.isEmpty then
        .error .notFound
      else
        match tierWalk o t networkPrecision with
        | .error _ => .error .queryFailure
        | .ok (some device) => .ok device
        | .ok none =>
          match (if networkPrecision == "FP32"
                 then tierWalk o t "FP16" else .ok none : Except Unit (Option String)) with
          | .error _ => .error .queryFailure
          | .ok (some device) => .ok device
          | .ok none =>
            match t.CPU with
            | [] => .error .cannotSelect
            | c :: _ => .ok c

/-- Comparison definition for the fallback clause of the spec: `selectDevice`
with the FP16 degradation pass removed, used to state that the fallback pass
is never taken for a non-FP32 precision. -/
def selectDeviceNoFallback (o : Oracle) (metaDevices : List String)
    (networkPrecision : String) : Except SelectError String :=
  match metaDevices with
  | [] => .error .notFound
  | [d] => .ok d
  | a :: b :: rest =>
    match classifyDevices o (a :: b :: rest) with
    | .error _ => .error .queryFailure
    | .ok t =>
      if t.CPU.isEmpty && t.dGPU.isEmpty && t.iGPU.isEmpty
          && t.MYRIAD.isEmpty && t.VPUX.isEmpty then
        .error .notFound
      else
        match tierWalk o t networkPrecision with
        | .error _ => .error .queryFailure
        | .ok (some device) => .ok device
        | .ok none =>
          match t.CPU with
          | [] => .error .cannotSelect
          | c :: _ => .ok c

/-- The plugin name set in the constructor (`_pluginName = "AUTO"`), returned
by `GetName()`. -/
def pluginName : String := "AUTO"

/-- The device loop of `AutoInferencePlugin::QueryNetwork` (lines 130-144):
for each enumerated device, try its operation-support query inside a
`try { ... } catch (...) {}`; on success merge the answer into the running
`supportedLayers` set and `break`; on failure fall through to the next
device.  The per-device query is modelled by `q`, yielding the key set of
`deviceQr.supportedLayersMap`. -/
def queryLoop (q : String → Except Unit (List String))
    (supportedLayers : List String) : List String → List String
  | [] => supportedLayers
  | value :: rest =>
    match q value with
    | .ok deviceSupportedLayers =>
      if supportedLayers.isEmpty then deviceSupportedLayers
      else if deviceSupportedLayers.isEmpty then supportedLayers
      else supportedLayers.inter deviceSupportedLayers
    | .error _ => queryLoop q supportedLayers rest

/-- `AutoInferencePlugin::QueryNetwork` (lines 117-150), from the device loop
on: the resulting `supportedLayersMap` assigns `GetName()` — this plugin's
own name — to every surviving operation id. -/
def queryNetworkModel (q : String → Except Unit (List String))
    (metaDevices : List String) : List (String × String) :=
  (queryLoop q [] metaDevices).map fun supportedLayer => (supportedLayer, pluginName)

/-- A configuration map: string keys to string values (`ConfigType`). -/
abbrev ConfigType := List (String × String)

/-- `config[key] = value` on a `std::map`: replace the value of an existing
key, or append a fresh entry. -/
def mapSet (m : ConfigType) (k v : String) : ConfigType :=
  match m with
  | [] => [(k, v)]
  | (k2, v2) :: rest => if k = k2 then (k, v) :: rest else (k2, v2) :: mapSet rest k v

/-- `AutoInferencePlugin::mergeConfigs` (lines 388-393): start from a copy of
`config` and write every entry of `localCfg` over it. -/
def mergeConfigs (config localCfg : ConfigType) : ConfigType :=
  localCfg.foldl (fun acc kvp => mapSet acc kvp.1 kvp.2) config

/-- Errors thrown by `AutoInferencePlugin::CheckConfig`. -/
inductive CfgErr
  | unsupportedValue (value key : String)
  | unsupportedKey (key : String)
deriving DecidableEq, Repr

/-- `AutoInferencePlugin::CheckConfig` (lines 249-266): keys prefixed with
`"AUTO_"` are accepted with any value; the key `PERF_COUNT`
(`IE::PluginConfigParams::KEY_PERF_COUNT`) is accepted with value `"YES"` or
`"NO"` and rejected with an unsupported-value error otherwise; every other
key is rejected with an unsupported-key error.  The function only reads its
argument; it is pure validation. -/
def checkConfig : ConfigType → Except CfgErr Unit
  | [] => .ok ()
  | kvp :: rest =>
    if startsWithStr kvp.1 "AUTO_" then checkConfig rest
    else if kvp.1 = "PERF_COUNT" then
      if kvp.2 = "YES" || kvp.2 = "NO" then checkConfig rest
      else .error (.unsupportedValue kvp.2 kvp.1)
    else .error (.unsupportedKey kvp.1)

/-- The operator kinds distinguished by `GetNetworkPrecision`
(lines 24-45): the quantization marker `FakeQuantize`, the six
convolution-family operator classes tested by `dynamic_pointer_cast`, and
everything else. -/
inductive OpKind
  | FakeQuantize
  | Convolution
  | GroupConvolution
  | GroupConvolutionBackpropData
  | ConvolutionBackpropData
  | ConvolutionIE
  | DeconvolutionIE
  | Other
deriving DecidableEq, Repr

/-- Whether an operator kind is one of the six convolution-family classes
tested in the scan loop of `GetNetworkPrecision`. -/
def isConvFamily : OpKind → Bool
  | .Convolution | .GroupConvolution | .GroupConvolutionBackpropData
  | .ConvolutionBackpropData | .ConvolutionIE | .DeconvolutionIE => true
  | _ => false

/-- A graph operator as far as `GetNetworkPrecision` inspects it: its kind
and the declared element-type name of its second input
(`node->input(1).get_element_type().get_type_name()`). -/
structure GNode where
  kind : OpKind
  input1TypeName : String
deriving DecidableEq, Repr

/-- The scan loop of `GetNetworkPrecision` (lines 30-43): walk the ordered
operators; at each convolution-family operator, return `"FP32"` for weight
type name `"f32"` and `"FP16"` for `"f16"`, otherwise keep scanning; default
to `"FP32"` when the loop finishes. -/
def scanPrecision : List GNode → String
  | [] => "FP32"
  | node :: rest =>
    if isConvFamily node.kind then
      if node.input1TypeName = "f32" then "FP32"
      else if node.input1TypeName = "f16" then "FP16"
      else scanPrecision rest
    else scanPrecision rest

/-- `GetNetworkPrecision` (lines 24-45): an `INT8` verdict as soon as the
graph holds any `FakeQuantize` operator, otherwise the scan loop. -/
def getNetworkPrecision (ops : List GNode) : String :=
  if ops.any (fun node => node.kind == .FakeQuantize) then "INT8"
  else scanPrecision ops

/-- `fullConfig.find(KEY_PERF_COUNT) != fullConfig.end()`: key presence. -/
def containsKey (m : ConfigType) (k : String) : Bool :=
  m.any fun kvp => kvp.1 == k

/-- The slice of `AutoExecutableNetwork` visible to `LoadNetworkImpl`
line 114 that is statable here: the performance-counters flag passed to the
constructor. -/
structure AutoExecutableNetworkModel where
  enablePerfCount : Bool
deriving DecidableEq, Repr

/-- Lines 79 and 112-114 of `LoadNetworkImpl`: merge the stored and
per-call configurations, then store, in the returned handle, whether the
`PERF_COUNT` key is present in the merged configuration (a presence test,
not a value test). -/
def loadNetworkPerfFlag (stored config : ConfigType) : AutoExecutableNetworkModel :=
  let fullConfig := mergeConfigs stored config
  { enablePerfCount := containsKey fullConfig "PERF_COUNT" }

instance {ε α : Type} [DecidableEq ε] [DecidableEq α] : DecidableEq (Except ε α)
  | .error e, .error f =>
    if h : e = f then .isTrue (by rw [h]) else .isFalse fun he => h (by cases he; rfl)
  | .error _, .ok _ => .isFalse fun h => by cases h
  | .ok _, .error _ => .isFalse fun h => by cases h
  | .ok x, .ok y =>
    if h : x = y then .isTrue (by rw [h]) else .isFalse fun he => h (by cases he; rfl)

/-! ### Concrete instances used on closed inputs -/

/-- A full-name oracle reporting a discrete-GPU marker for every device. -/
def fnDGPUAll : String → String := fun _ => "a dGPU card"

/-- A full-name oracle whose reported names contain neither marker. -/
def fnNoMarker : String → String := fun _ => "Intel Graphics"

/-- Capabilities: every device advertises FP32. -/
def cpFP32All : String → List String := fun _ => ["FP32"]

/-- Capabilities: every device advertises only FP16. -/
def cpFP16All : String → List String := fun _ => ["FP16"]

/-- Capabilities: only the device `VPUX.0` advertises FP16. -/
def cpVPUXOnlyFP16 : String → List String :=
  fun d => if d = "VPUX.0" then ["FP16"] else []

/-- An oracle on which every per-device query fails. -/
def oracleAllFail : Oracle := ⟨fun _ => .error (), fun _ => .error ()⟩

/-- An oracle whose full-name queries succeed with a discrete-GPU marker but
whose capability queries all fail. -/
def oracleCapsFail : Oracle := ⟨fun _ => .ok "a dGPU card", fun _ => .error ()⟩

/-- An operation-support query on which only `ACCEL.0` answers. -/
def qAccel : String → Except Unit (List String) :=
  fun d => if d = "ACCEL.0" then .ok ["opA", "opB"] else .error ()

/-! ### Helper lemmas -/

theorem classifyDevices_ofTotal (fn : String → String) (cp : String → List String)
    (l : List String) :
    classifyDevices (Oracle.ofTotal fn cp) l = .ok (tiersOf fn l) := by
  induction l with
  | nil => rfl
  | cons item rest ih =>
    rw [classifyDevices, tiersOf, ih]
    by_cases h1 : startsWithStr item "CPU" = true
    · simp [h1, Except.map]
    by_cases h2 : startsWithStr item "MYRIAD" = true
    · simp [h1, h2, Except.map]
    by_cases h3 : startsWithStr item "VPUX" = true
    · simp [h1, h2, h3, Except.map]
    by_cases h4 : startsWithStr item "GPU" = true
    · by_cases h5 : containsSubstr (fn item) "iGPU" = true
      · simp [h1, h2, h3, h4, h5, Except.map]
      by_cases h6 : containsSubstr (fn item) "dGPU" = true
      · simp [h1, h2, h3, h4, h5, h6, Except.map]
      · simp [h1, h2, h3, h4, h5, h6, Except.map]
    · simp [h1, h2, h3, h4]

theorem findCapable_ofTotal (fn : String → String) (cp : String → List String)
    (p : String) (l : List String) :
    findCapable (Oracle.ofTotal fn cp) p l
      = .ok (l.find? fun d => (cp d).contains p) := by
  induction l with
  | nil => rfl
  | cons item rest ih =>
    rw [findCapable, List.find?_cons]
    cases h : (cp item).contains p
    · have h' : ¬ p ∈ cp item := by simpa using h
      simp [h', ih]
    · have h' : p ∈ cp item := by simpa using h
      simp [h']

theorem tiersOf_filter (fn : String → String) (l : List String) :
    tiersOf fn l =
      { CPU := l.filter fun d => classifyOne fn d == .cpu
        dGPU := l.filter fun d => classifyOne fn d == .dgpu
        iGPU := l.filter fun d => classifyOne fn d == .igpu
        MYRIAD := l.filter fun d => classifyOne fn d == .myriad
        VPUX := l.filter fun d => classifyOne fn d == .vpux } := by
  induction l with
  | nil => rfl
  | cons item rest ih =>
    rw [tiersOf, ih]
    by_cases h1 : startsWithStr item "CPU" = true
    · simp [classifyOne, h1, List.filter_cons]
    by_cases h2 : startsWithStr item "MYRIAD" = true
    · simp [classifyOne, h1, h2, List.filter_cons]
    by_cases h3 : startsWithStr item "VPUX" = true
    · simp [classifyOne, h1, h2, h3, List.filter_cons]
    by_cases h4 : startsWithStr item "GPU" = true
    · by_cases h5 : containsSubstr (fn item) "iGPU" = true
      · simp [classifyOne, h1, h2, h3, h4, h5, List.filter_cons]
      by_cases h6 : containsSubstr (fn item) "dGPU" = true
      · simp [classifyOne, h1, h2, h3, h4, h5, h6, List.filter_cons]
      · simp [classifyOne, h1, h2, h3, h4, h5, h6, List.filter_cons]
    · simp [classifyOne, h1, h2, h3, h4, List.filter_cons]

theorem mem_firstAccelTier (fn : String → String) (l : List String) (d : String)
    (h : d ∈ firstAccelTier (tiersOf fn l)) : d ∈ l := by
  rw [tiersOf_filter] at h
  unfold firstAccelTier at h
  split_ifs at h <;>
    first
      | exact (List.mem_filter.mp h).1
      | simp at h

theorem firstAccelTier_cond_false (t : Tiers) (h : firstAccelTier t ≠ []) :
    (t.CPU.isEmpty && t.dGPU.isEmpty && t.iGPU.isEmpty
      && t.MYRIAD.isEmpty && t.VPUX.isEmpty) = false := by
  unfold firstAccelTier at h
  split_ifs at h with h1 h2 h3 h4 <;>
    simp_all [List.isEmpty_iff, Bool.and_eq_false_iff]

theorem selectDevice_ofTotal_found (fn : String → String) (cp : String → List String)
    (a b : String) (rest : List String) (prec r : String)
    (hf : (firstAccelTier (tiersOf fn (a :: b :: rest))).find?
            (fun d => (cp d).contains prec) = some r) :
    selectDevice (Oracle.ofTotal fn cp) (a :: b :: rest) prec = .ok r := by
  have hcl := classifyDevices_ofTotal fn cp (a :: b :: rest)
  have hfat : firstAccelTier (tiersOf fn (a :: b :: rest)) ≠ [] := by
    intro he; rw [he] at hf; simp at hf
  have hcond := firstAccelTier_cond_false _ hfat
  simp only [selectDevice, hcl, tierWalk, findCapable_ofTotal, hf, hcond,
    Bool.false_eq_true, if_false]

theorem selectDevice_ofTotal_fallback (fn : String → String) (cp : String → List String)
    (a b : String) (rest : List String) (r : String)
    (h32 : (firstAccelTier (tiersOf fn (a :: b :: rest))).find?
             (fun d => (cp d).contains "FP32") = none)
    (h16 : (firstAccelTier (tiersOf fn (a :: b :: rest))).find?
             (fun d => (cp d).contains "FP16") = some r) :
    selectDevice (Oracle.ofTotal fn cp) (a :: b :: rest) "FP32" = .ok r := by
  have hcl := classifyDevices_ofTotal fn cp (a :: b :: rest)
  have hfat : firstAccelTier (tiersOf fn (a :: b :: rest)) ≠ [] := by
    intro he; rw [he] at h16; simp at h16
  have hcond := firstAccelTier_cond_false _ hfat
  simp only [selectDevice, hcl, tierWalk, findCapable_ofTotal, h32, h16, hcond,
    Bool.false_eq_true, if_false, beq_self_eq_true, if_true]

theorem classifyDevices_unrecognized (o : Oracle) (l : List String)
    (h : ∀ d ∈ l, startsWithStr d "CPU" = false ∧ startsWithStr d "MYRIAD" = false
       ∧ startsWithStr d "VPUX" = false ∧ startsWithStr d "GPU" = false) :
    classifyDevices o l = .ok ⟨[], [], [], [], []⟩ := by
  induction l with
  | nil => rfl
  | cons item rest ih =>
    obtain ⟨h1, h2, h3, h4⟩ := h item (List.mem_cons_self item rest)
    rw [classifyDevices]
    simp only [h1, h2, h3, h4, Bool.false_eq_true, if_false]
    exact ih fun d hd => h d (List.mem_cons_of_mem item hd)

theorem firstAccelTier_dGPU (t : Tiers) (h : t.dGPU ≠ []) :
    firstAccelTier t = t.dGPU := by
  unfold firstAccelTier
  simp [List.isEmpty_iff, h]

theorem selectDevice_no_fallback_of_ne (o : Oracle) (l : List String) (prec : String)
    (h : (prec == "FP32") = false) :
    selectDevice o l prec = selectDeviceNoFallback o l prec := by
  match l with
  | [] => rfl
  | [d] => rfl
  | a :: b :: rest =>
    simp only [selectDevice, selectDeviceNoFallback, h, Bool.false_eq_true, if_false]

theorem selectDevice_classify_error (o : Oracle) (a b : String) (rest : List String)
    (prec : String) (h : classifyDevices o (a :: b :: rest) = .error ()) :
    selectDevice o (a :: b :: rest) prec = .error .queryFailure := by
  simp only [selectDevice, h]

theorem selectDevice_walk_error (o : Oracle) (a b : String) (rest : List String)
    (prec : String) (t : Tiers)
    (hc : classifyDevices o (a :: b :: rest) = .ok t)
    (hne : (t.CPU.isEmpty && t.dGPU.isEmpty && t.iGPU.isEmpty
             && t.MYRIAD.isEmpty && t.VPUX.isEmpty) = false)
    (hw : tierWalk o t prec = .error ()) :
    selectDevice o (a :: b :: rest) prec = .error .queryFailure := by
  simp only [selectDevice, hc, hne, Bool.false_eq_true, if_false, hw]

/-! ### Claim theorems -/

/-- C1: on a device list of size at least two whose dGPU tier contains a
member advertising the requested precision class, with every per-device
query succeeding, `SelectDevice` returns the first dGPU-tier member whose
capability set contains the precision class — a member of the dGPU tier,
never a processor-tier or lower-priority-tier device. -/
theorem selectDevice_dgpu_first (fn : String → String) (cp : String → List String)
    (a b : String) (rest : List String) (prec : String) :
    ((∃ d ∈ (tiersOf fn (a :: b :: rest)).dGPU, (cp d).contains prec = true) →
      ∃ r, (tiersOf fn (a :: b :: rest)).dGPU.find?
             (fun d => (cp d).contains prec) = some r
        ∧ r ∈ (tiersOf fn (a :: b :: rest)).dGPU
        ∧ selectDevice (Oracle.ofTotal fn cp) (a :: b :: rest) prec = .ok r)
    ∧ (∀ r, (firstAccelTier (tiersOf fn (a :: b :: rest))).find?
              (fun d => (cp d).contains prec) = some r →
        selectDevice (Oracle.ofTotal fn cp) (a :: b :: rest) prec = .ok r) := by
  constructor
  · intro hd
    have hsome : ((tiersOf fn (a :: b :: rest)).dGPU.find?
        (fun d => (cp d).contains prec)).isSome := by
      rw [List.find?_isSome]
      obtain ⟨d, hmem, hcap⟩ := hd
      exact ⟨d, hmem, hcap⟩
    obtain ⟨r, hr⟩ := Option.isSome_iff_exists.mp hsome
    have hne : (tiersOf fn (a :: b :: rest)).dGPU ≠ [] := by
      intro he
      rw [he] at hr
      simp at hr
    refine ⟨r, hr, List.mem_of_find?_eq_some hr, ?_⟩
    apply selectDevice_ofTotal_found
    rw [firstAccelTier_dGPU _ hne]
    exact hr
  · intro r hr
    exact selectDevice_ofTotal_found fn cp a b rest prec r hr

/-- C1 witness: devices `["CPU", "GPU.0"]` where `GPU.0` has a discrete-GPU
full name and advertises FP32. -/
theorem selectDevice_dgpu_first_witness :
    (∃ r, (tiersOf fnDGPUAll ["CPU", "GPU.0"]).dGPU.find?
              (fun d => (cpFP32All d).contains "FP32") = some r
        ∧ r ∈ (tiersOf fnDGPUAll ["CPU", "GPU.0"]).dGPU
        ∧ selectDevice (Oracle.ofTotal fnDGPUAll cpFP32All) ["CPU", "GPU.0"] "FP32" = .ok r)
    ∧ selectDevice (Oracle.ofTotal fnDGPUAll cpFP32All) ["CPU", "GPU.0"] "FP32" = .ok "GPU.0" :=
  ⟨(selectDevice_dgpu_first fnDGPUAll cpFP32All "CPU" "GPU.0" [] "FP32").1
      ⟨"GPU.0", by decide, by decide⟩,
    (selectDevice_dgpu_first fnDGPUAll cpFP32All "CPU" "GPU.0" [] "FP32").2
      "GPU.0" (by decide)⟩

/-- C2 counterexample: with devices `["GPU.0", "VPUX.0"]`, where `GPU.0` is a
discrete GPU advertising nothing and `VPUX.0` advertises FP16, no device
advertises FP32 and some device advertises FP16, yet an FP32 request fails
with the generic selection error instead of returning the FP16-capable
device: the FP16 fallback only rescans the first non-empty tier. -/
theorem selectDevice_fp16_fallback_counterexample :
    (∀ d ∈ ["GPU.0", "VPUX.0"], (cpVPUXOnlyFP16 d).contains "FP32" = false)
    ∧ (cpVPUXOnlyFP16 "VPUX.0").contains "FP16" = true
    ∧ selectDevice (Oracle.ofTotal fnDGPUAll cpVPUXOnlyFP16) ["GPU.0", "VPUX.0"] "FP32"
        = .error .cannotSelect := by
  refine ⟨by decide, by decide, ?_⟩
  rfl

/-- C2 (amended): on a device list of size at least two, when no member of
the first non-empty accelerator tier (in the fixed order dGPU, VPUX, iGPU,
MYRIAD) advertises FP32 but some member of that same tier advertises FP16,
an FP32 request returns the first FP16-advertising member of that tier; and
for a non-FP32 request (INT8 or FP16) the fallback pass is never taken:
`SelectDevice` coincides with the fallback-free variant. -/
theorem selectDevice_fp16_fallback :
    (∀ (fn : String → String) (cp : String → List String) (a b : String)
       (rest : List String),
       (∀ d ∈ firstAccelTier (tiersOf fn (a :: b :: rest)),
          (cp d).contains "FP32" = false) →
       ∀ r, (firstAccelTier (tiersOf fn (a :: b :: rest))).find?
              (fun d => (cp d).contains "FP16") = some r →
         selectDevice (Oracle.ofTotal fn cp) (a :: b :: rest) "FP32" = .ok r)
    ∧ (∀ (o : Oracle) (l : List String) (prec : String),
        prec = "INT8" ∨ prec = "FP16" →
        selectDevice o l prec = selectDeviceNoFallback o l prec) := by
  constructor
  · intro fn cp a b rest hnone r h16
    apply selectDevice_ofTotal_fallback
    · rw [List.find?_eq_none]
      intro d hd
      simpa using hnone d hd
    · exact h16
  · intro o l prec hprec
    apply selectDevice_no_fallback_of_ne
    rcases hprec with h | h <;> subst h <;> rfl

/-- C2 witness: the fallback succeeds on `["CPU", "GPU.0"]` where `GPU.0` is
a discrete GPU advertising only FP16, and an INT8 request coincides with the
fallback-free variant. -/
theorem selectDevice_fp16_fallback_witness :
    (∀ d ∈ firstAccelTier (tiersOf fnDGPUAll ["CPU", "GPU.0"]),
       (cpFP16All d).contains "FP32" = false)
    ∧ selectDevice (Oracle.ofTotal fnDGPUAll cpFP16All) ["CPU", "GPU.0"] "FP32" = .ok "GPU.0"
    ∧ selectDevice oracleAllFail ["MYRIAD.0", "CPU"] "INT8"
        = selectDeviceNoFallback oracleAllFail ["MYRIAD.0", "CPU"] "INT8" :=
  ⟨by decide,
    selectDevice_fp16_fallback.1 fnDGPUAll cpFP16All "CPU" "GPU.0" [] (by decide)
      "GPU.0" (by decide),
    selectDevice_fp16_fallback.2 oracleAllFail ["MYRIAD.0", "CPU"] "INT8" (Or.inl rfl)⟩

/-- C3 counterexample: on devices `["CPU", "GPU.0"]` with an oracle whose
per-device queries all fail, the full-name query failure for `GPU.0` is not
caught: `SelectDevice` propagates a query failure to its caller instead of
skipping the device (which would have returned the CPU fallback). -/
theorem selectDevice_query_failure_counterexample :
    selectDevice oracleAllFail ["CPU", "GPU.0"] "FP32" = .error .queryFailure := by
  rfl

/-- C3 (amended): per-device operation-support query failures are caught and
the device skipped inside `QueryNetwork`'s loop, but `SelectDevice` does not
catch per-device metric failures: a failing full-name query during tier
classification, or a failing capability query during the tier walk,
propagates to `SelectDevice`'s caller. -/
theorem query_failure_handling :
    (∀ (q : String → Except Unit (List String)) (s : List String) (d : String)
       (ds : List String), q d = .error () →
       queryLoop q s (d :: ds) = queryLoop q s ds)
    ∧ (∀ (o : Oracle) (a b : String) (rest : List String) (prec : String),
        classifyDevices o (a :: b :: rest) = .error () →
        selectDevice o (a :: b :: rest) prec = .error .queryFailure)
    ∧ (∀ (o : Oracle) (a b : String) (rest : List String) (prec : String) (t : Tiers),
        classifyDevices o (a :: b :: rest) = .ok t →
        (t.CPU.isEmpty && t.dGPU.isEmpty && t.iGPU.isEmpty
          && t.MYRIAD.isEmpty && t.VPUX.isEmpty) = false →
        tierWalk o t prec = .error () →
        selectDevice o (a :: b :: rest) prec = .error .queryFailure) := by
  refine ⟨?_, ?_, ?_⟩
  · intro q s d ds hq
    rw [queryLoop, hq]
  · intro o a b rest prec h
    exact selectDevice_classify_error o a b rest prec h
  · intro o a b rest prec t hc hne hw
    exact selectDevice_walk_error o a b rest prec t hc hne hw

/-- C3 witness: the skip clause on a failing device, the classification
propagation on `oracleAllFail`, and the tier-walk propagation on an oracle
whose capability queries fail. -/
theorem query_failure_handling_witness :
    queryLoop qAccel [] ["CPU", "ACCEL.0"] = queryLoop qAccel [] ["ACCEL.0"]
    ∧ selectDevice oracleAllFail ["CPU", "GPU.0"] "FP32" = .error .queryFailure
    ∧ selectDevice oracleCapsFail ["GPU.0", "GPU.1"] "FP32" = .error .queryFailure :=
  ⟨query_failure_handling.1 qAccel [] "CPU" ["ACCEL.0"] rfl,
    query_failure_handling.2.1 oracleAllFail "CPU" "GPU.0" [] "FP32" rfl,
    query_failure_handling.2.2 oracleCapsFail "GPU.0" "GPU.1" [] "FP32"
      ⟨[], ["GPU.0", "GPU.1"], [], [], []⟩ rfl rfl rfl⟩

/-- C5 counterexample: the singleton list `["FOO"]`, whose sole member
matches no recognized prefix and contains no processor-tier device, is
returned verbatim instead of failing with a selection error: the
single-device early return precedes all classification. -/
theorem selectDevice_unrecognized_counterexample :
    selectDevice (Oracle.ofTotal fnNoMarker cpFP32All) ["FOO"] "FP32" = .ok "FOO" := by
  rfl

/-- C5 (amended): `SelectDevice` on an empty device list fails with
`NotFound`; on a device list of size at least two containing only devices
matching none of the recognized prefixes, every tier is empty and it fails
with `NotFound`; a singleton list is returned verbatim without
classification. -/
theorem selectDevice_empty_unrecognized :
    (∀ (o : Oracle) (prec : String), selectDevice o [] prec = .error .notFound)
    ∧ (∀ (o : Oracle) (a b : String) (rest : List String) (prec : String),
        (∀ d ∈ a :: b :: rest,
          startsWithStr d "CPU" = false ∧ startsWithStr d "MYRIAD" = false
          ∧ startsWithStr d "VPUX" = false ∧ startsWithStr d "GPU" = false) →
        selectDevice o (a :: b :: rest) prec = .error .notFound)
    ∧ (∀ (o : Oracle) (d prec : String), selectDevice o [d] prec = .ok d) := by
  refine ⟨fun o prec => rfl, ?_, fun o d prec => rfl⟩
  intro o a b rest prec h
  have hcl := classifyDevices_unrecognized o (a :: b :: rest) h
  simp only [selectDevice, hcl, List.isEmpty_nil, Bool.and_self, if_true]

/-- C5 witness: the empty list, a two-element unrecognized list, and a
singleton. -/
theorem selectDevice_empty_unrecognized_witness :
    selectDevice oracleAllFail [] "FP32" = .error .notFound
    ∧ selectDevice oracleAllFail ["FOO", "BAR"] "FP32" = .error .notFound
    ∧ selectDevice oracleAllFail ["FOO"] "FP32" = .ok "FOO" :=
  ⟨selectDevice_empty_unrecognized.1 oracleAllFail "FP32",
    selectDevice_empty_unrecognized.2.1 oracleAllFail "FOO" "BAR" [] "FP32" (by decide),
    selectDevice_empty_unrecognized.2.2 oracleAllFail "FOO" "FP32"⟩

theorem queryLoop_append_error (q : String → Except Unit (List String))
    (s : List String) (ds1 ds2 : List String)
    (h : ∀ x ∈ ds1, q x = .error ()) :
    queryLoop q s (ds1 ++ ds2) = queryLoop q s ds2 := by
  induction ds1 with
  | nil => rfl
  | cons d ds ih =>
    rw [List.cons_append, queryLoop, h d (List.mem_cons_self d ds)]
    exact ih fun x hx => h x (List.mem_cons_of_mem d hx)

/-- C4: `QueryNetwork`'s device loop stops at the first device whose
operation-support query succeeds and uses exactly that device's answer;
every operation id of the result is attributed to this plugin's own name;
and when every per-device query fails the result is the empty mapping,
with no error raised. -/
theorem queryNetwork_first_success :
    (∀ (q : String → Except Unit (List String)) (ds1 : List String) (d : String)
       (ds2 L : List String),
       (∀ x ∈ ds1, q x = .error ()) → q d = .ok L →
       queryNetworkModel q (ds1 ++ d :: ds2) = L.map fun layer => (layer, pluginName))
    ∧ (∀ (q : String → Except Unit (List String)) (ds : List String),
        (∀ x ∈ ds, q x = .error ()) → queryNetworkModel q ds = [])
    ∧ (∀ (q : String → Except Unit (List String)) (ds : List String)
        (p : String × String), p ∈ queryNetworkModel q ds → p.2 = pluginName) := by
  refine ⟨?_, ?_, ?_⟩
  · intro q ds1 d ds2 L h1 hd
    unfold queryNetworkModel
    rw [queryLoop_append_error q [] ds1 (d :: ds2) h1, queryLoop, hd]
    simp
  · intro q ds h
    unfold queryNetworkModel
    rw [show ds = ds ++ [] from (List.append_nil ds).symm,
      queryLoop_append_error q [] ds [] h]
    rfl
  · intro q ds p hp
    unfold queryNetworkModel at hp
    obtain ⟨layer, _, hlp⟩ := List.mem_map.mp hp
    rw [← hlp]

/-- C4 witness: on `["CPU", "ACCEL.0"]` where only `ACCEL.0` answers (with
`{opA, opB}`), the result maps both operation ids to this plugin's name;
on a query that always fails the result is empty. -/
theorem queryNetwork_first_success_witness :
    queryNetworkModel qAccel ["CPU", "ACCEL.0"]
        = [("opA", pluginName), ("opB", pluginName)]
    ∧ queryNetworkModel (fun _ => .error ()) ["CPU", "ACCEL.0"] = []
    ∧ ("opA", "AUTO").2 = pluginName :=
  ⟨queryNetwork_first_success.1 qAccel ["CPU"] "ACCEL.0" [] ["opA", "opB"]
      (by decide) rfl,
    queryNetwork_first_success.2.1 (fun _ => .error ()) ["CPU", "ACCEL.0"]
      (fun x _ => rfl),
    queryNetwork_first_success.2.2 qAccel ["CPU", "ACCEL.0"] ("opA", "AUTO")
      (by decide)⟩

theorem scanPrecision_eq_find (ops : List GNode) :
    scanPrecision ops =
      match ops.find? (fun n => isConvFamily n.kind
          && (n.input1TypeName == "f32" || n.input1TypeName == "f16")) with
      | none => "FP32"
      | some n => if n.input1TypeName = "f32" then "FP32" else "FP16" := by
  induction ops with
  | nil => rfl
  | cons node rest ih =>
    rw [scanPrecision, List.find?_cons]
    cases hc : isConvFamily node.kind
    · simpa [hc] using ih
    · by_cases h32 : node.input1TypeName = "f32"
      · simp [hc, h32]
      · have b32 : (node.input1TypeName == "f32") = false := by simpa using h32
        by_cases h16 : node.input1TypeName = "f16"
        · simp [hc, h32, h16]
        · have b16 : (node.input1TypeName == "f16") = false := by simpa using h16
          simpa [hc, h32, h16, b32, b16] using ih

/-- C6: the precision classifier returns INT8 whenever a FakeQuantize
operator is present (even alongside a 32-bit convolution); with no
FakeQuantize present, it is determined by the first convolution-family
operator whose second-input type name is recognized ("f32" → FP32,
"f16" → FP16), and defaults to FP32 when no such operator exists. -/
theorem getNetworkPrecision_spec (ops : List GNode) :
    ((∃ n ∈ ops, n.kind = .FakeQuantize) → getNetworkPrecision ops = "INT8")
    ∧ ((∀ n ∈ ops, n.kind ≠ .FakeQuantize) →
        (ops.find? (fun n => isConvFamily n.kind
            && (n.input1TypeName == "f32" || n.input1TypeName == "f16")) = none →
          getNetworkPrecision ops = "FP32")
        ∧ (∀ n, ops.find? (fun n => isConvFamily n.kind
            && (n.input1TypeName == "f32" || n.input1TypeName == "f16")) = some n →
            getNetworkPrecision ops
              = if n.input1TypeName = "f32" then "FP32" else "FP16")) := by
  constructor
  · intro ⟨n, hmem, hk⟩
    unfold getNetworkPrecision
    rw [if_pos]
    rw [List.any_eq_true]
    exact ⟨n, hmem, by simp [hk]⟩
  · intro hno
    have hany : (ops.any fun node => node.kind == .FakeQuantize) = false := by
      rw [List.any_eq_false]
      intro n hn
      simpa using hno n hn
    constructor
    · intro hfind
      unfold getNetworkPrecision
      rw [hany]
      simp only [Bool.false_eq_true, if_false]
      rw [scanPrecision_eq_find, hfind]
    · intro n hfind
      unfold getNetworkPrecision
      rw [hany]
      simp only [Bool.false_eq_true, if_false]
      rw [scanPrecision_eq_find, hfind]

/-- C6 witness: a graph with FakeQuantize next to a 32-bit convolution is
INT8; a graph with no convolution family member is FP32; a graph whose
first recognized convolution carries "f16" weights is FP16. -/
theorem getNetworkPrecision_spec_witness :
    getNetworkPrecision [⟨.FakeQuantize, "f32"⟩, ⟨.Convolution, "f32"⟩] = "INT8"
    ∧ getNetworkPrecision [⟨.Other, "f32"⟩] = "FP32"
    ∧ getNetworkPrecision [⟨.Other, "x"⟩, ⟨.Convolution, "f16"⟩] = "FP16" := by
  refine ⟨?_, ?_, ?_⟩
  · exact (getNetworkPrecision_spec _).1 ⟨⟨.FakeQuantize, "f32"⟩, by decide, rfl⟩
  · exact ((getNetworkPrecision_spec [⟨.Other, "f32"⟩]).2 (by decide)).1 (by decide)
  · have h := ((getNetworkPrecision_spec [⟨.Other, "x"⟩, ⟨.Convolution, "f16"⟩]).2
      (by decide)).2 ⟨.Convolution, "f16"⟩ (by decide)
    simpa using h

/-- C7: configuration validation accepts every `AUTO_`-prefixed key with any
value and the `PERF_COUNT` key exactly with value `YES` or `NO`; a
`PERF_COUNT` entry with any other value is rejected with an
unsupported-value error and any other key with an unsupported-key error.
The validator is a pure function of the map. -/
theorem checkConfig_spec (cfg : ConfigType) :
    ((checkConfig cfg = .ok ()) ↔
      ∀ p ∈ cfg, startsWithStr p.1 "AUTO_" = true
        ∨ (p.1 = "PERF_COUNT" ∧ (p.2 = "YES" ∨ p.2 = "NO")))
    ∧ (∀ v, v ≠ "YES" → v ≠ "NO" →
        checkConfig [("PERF_COUNT", v)] = .error (.unsupportedValue v "PERF_COUNT"))
    ∧ (∀ k v, startsWithStr k "AUTO_" = false → k ≠ "PERF_COUNT" →
        checkConfig [(k, v)] = .error (.unsupportedKey k)) := by
  refine ⟨?_, ?_, ?_⟩
  · induction cfg with
    | nil => simp [checkConfig]
    | cons kvp rest ih =>
      rw [checkConfig]
      have hPC : startsWithStr "PERF_COUNT" "AUTO_" = false := by decide
      by_cases h1 : startsWithStr kvp.1 "AUTO_" = true
      · simp [h1, ih, List.forall_mem_cons]
      · by_cases h2 : kvp.1 = "PERF_COUNT"
        · by_cases h3 : kvp.2 = "YES"
          · simp [h1, h2, h3, hPC, ih, List.forall_mem_cons]
          · by_cases h4 : kvp.2 = "NO"
            · simp [h1, h2, h3, h4, hPC, ih, List.forall_mem_cons]
            · simp [h1, h2, h3, h4, hPC, List.forall_mem_cons]
        · simp [h1, h2, List.forall_mem_cons]
  · intro v hY hN
    simp [checkConfig, hY, hN,
      show startsWithStr "PERF_COUNT" "AUTO_" = false from by decide]
  · intro k v hA hP
    simp [checkConfig, hA, hP]

/-- C7 witness: accepts a namespaced key and `PERF_COUNT=YES`; rejects
`PERF_COUNT=MAYBE` with an unsupported-value error and `RANDOM_KEY` with an
unsupported-key error. -/
theorem checkConfig_spec_witness :
    checkConfig [("AUTO_FOO", "bar"), ("PERF_COUNT", "YES")] = .ok ()
    ∧ checkConfig [("PERF_COUNT", "MAYBE")] = .error (.unsupportedValue "MAYBE" "PERF_COUNT")
    ∧ checkConfig [("RANDOM_KEY", "x")] = .error (.unsupportedKey "RANDOM_KEY") := by
  refine ⟨?_, ?_, ?_⟩
  · exact (checkConfig_spec _).1.mpr (by decide)
  · exact (checkConfig_spec [("PERF_COUNT", "MAYBE")]).2.1 "MAYBE" (by decide) (by decide)
  · exact (checkConfig_spec [("RANDOM_KEY", "x")]).2.2 "RANDOM_KEY" "x" (by decide) (by decide)

theorem lookup_mapSet (m : ConfigType) (k v k' : String) :
    List.lookup k' (mapSet m k v) = if k' = k then some v else List.lookup k' m := by
  induction m with
  | nil =>
    by_cases h : k' = k
    · simp [mapSet, List.lookup, h]
    · simp [mapSet, List.lookup, h, show (k' == k) = false from by simpa using h]
  | cons kvp rest ih =>
    rw [mapSet]
    by_cases h1 : k = kvp.1
    · by_cases h2 : k' = k
      · simp [List.lookup, h1, h2]
      · have h4 : ¬ k' = kvp.1 := h1 ▸ h2
        simp [List.lookup, h1, h2, h4,
          show (k' == kvp.1) = false from by simpa using h4]
    · by_cases h3 : k' = kvp.1
      · have h2 : ¬ k' = k := fun he => h1 (he ▸ h3)
        have h5 : ¬ kvp.1 = k := h3 ▸ h2
        simp [List.lookup, h1, h2, h3, h5]
      · simp [List.lookup, h1,
          show (k' == kvp.1) = false from by simpa using h3, ih]

theorem lookup_none_of_nmem_keys (m : ConfigType) (k : String)
    (h : k ∉ m.map Prod.fst) : List.lookup k m = none := by
  induction m with
  | nil => rfl
  | cons kvp rest ih =>
    simp only [List.map_cons, List.mem_cons, not_or] at h
    simp [List.lookup, show (k == kvp.1) = false from by simpa using h.1, ih h.2]

/-- C8: configuration merging is right-biased: for override maps without
duplicate keys, a lookup in `mergeConfigs base override` yields the
override's value for every key the override holds and the base's value
otherwise; merging with an empty override returns the base unchanged. -/
theorem mergeConfigs_right_biased (A B : ConfigType) :
    ((B.map Prod.fst).Nodup →
      ∀ k, List.lookup k (mergeConfigs A B)
        = match List.lookup k B with
          | some v => some v
          | none => List.lookup k A)
    ∧ mergeConfigs A [] = A := by
  constructor
  · induction B generalizing A with
    | nil => intro _ k; rfl
    | cons kvp B2 ih =>
      intro hnd k
      rw [List.map_cons, List.nodup_cons] at hnd
      have hstep : mergeConfigs A (kvp :: B2) = mergeConfigs (mapSet A kvp.1 kvp.2) B2 := rfl
      rw [hstep, ih (mapSet A kvp.1 kvp.2) hnd.2 k]
      by_cases hk : k = kvp.1
      · rw [hk, lookup_none_of_nmem_keys B2 kvp.1 hnd.1]
        simp [List.lookup, lookup_mapSet]
      · have hb : (k == kvp.1) = false := by simpa using hk
        cases hx : List.lookup k B2 <;>
          simp [List.lookup, hb, lookup_mapSet, hk, hx]
  · rfl

/-- C8 witness: `merge({"k":"1"}, {"k":"2"})` looks up to `"2"`, and merging
with the empty map is the identity. -/
theorem mergeConfigs_right_biased_witness :
    List.lookup "k" (mergeConfigs [("k", "1")] [("k", "2")]) = some "2"
    ∧ mergeConfigs [("k", "1")] [] = [("k", "1")] := by
  constructor
  · have h := (mergeConfigs_right_biased [("k", "1")] [("k", "2")]).1 (by decide) "k"
    simpa using h
  · exact (mergeConfigs_right_biased [("k", "1")] []).2

/-- C9 counterexample: `GPU.0` matches the recognized accelerator prefix
`GPU`, yet with a full device name containing neither the `iGPU` nor the
`dGPU` marker it is placed in none of the five buckets. -/
theorem tier_classification_counterexample :
    startsWithStr "GPU.0" "GPU" = true
    ∧ tiersOf fnNoMarker ["GPU.0"] = ⟨[], [], [], [], []⟩ := by
  constructor
  · decide
  · rfl

theorem leadsWithChars_head_eq (l : List Char) (a b : Char) (as bs : List Char)
    (ha : leadsWithChars (a :: as) l = true) (hb : leadsWithChars (b :: bs) l = true) :
    a = b := by
  cases l with
  | nil => simp [leadsWithChars] at ha
  | cons c rest =>
    rw [leadsWithChars, Bool.and_eq_true] at ha hb
    have h1 : a = c := by simpa using ha.1
    have h2 : b = c := by simpa using hb.1
    rw [h1, h2]

theorem startsWithStr_excl (d : String) (a b : Char) (as bs : List Char)
    (hab : a ≠ b)
    (ha : leadsWithChars (a :: as) d.toList = true)
    (hb : leadsWithChars (b :: bs) d.toList = true) : False :=
  hab (leadsWithChars_head_eq d.toList a b as bs ha hb)

/-- C9 (amended): for a device of the enumerated list, membership in each of
the five buckets is equivalent to the prefix-chain classification of that
device, so each device lands in at most one bucket; a device is dropped
exactly when it matches no recognized prefix, or matches the `GPU` prefix
while its full name contains neither the `iGPU` nor the `dGPU` marker. -/
theorem tier_classification_buckets (fn : String → String) (l : List String)
    (d : String) (hd : d ∈ l) :
    (d ∈ (tiersOf fn l).CPU ↔ classifyOne fn d = .cpu)
    ∧ (d ∈ (tiersOf fn l).dGPU ↔ classifyOne fn d = .dgpu)
    ∧ (d ∈ (tiersOf fn l).iGPU ↔ classifyOne fn d = .igpu)
    ∧ (d ∈ (tiersOf fn l).MYRIAD ↔ classifyOne fn d = .myriad)
    ∧ (d ∈ (tiersOf fn l).VPUX ↔ classifyOne fn d = .vpux)
    ∧ (classifyOne fn d = .dropped ↔
        ((startsWithStr d "CPU" = false ∧ startsWithStr d "MYRIAD" = false
          ∧ startsWithStr d "VPUX" = false ∧ startsWithStr d "GPU" = false)
         ∨ (startsWithStr d "GPU" = true
            ∧ containsSubstr (fn d) "iGPU" = false
            ∧ containsSubstr (fn d) "dGPU" = false))) := by
  rw [tiersOf_filter]
  refine ⟨by simp [List.mem_filter, hd], by simp [List.mem_filter, hd],
    by simp [List.mem_filter, hd], by simp [List.mem_filter, hd],
    by simp [List.mem_filter, hd], ?_⟩
  unfold classifyOne
  by_cases h1 : startsWithStr d "CPU" = true
  · have hg : startsWithStr d "GPU" = false := by
      by_contra hg
      rw [Bool.not_eq_false] at hg
      exact startsWithStr_excl d 'C' 'G' _ _ (by decide) h1 hg
    simp [h1, hg]
  by_cases h2 : startsWithStr d "MYRIAD" = true
  · have hg : startsWithStr d "GPU" = false := by
      by_contra hg
      rw [Bool.not_eq_false] at hg
      exact startsWithStr_excl d 'M' 'G' _ _ (by decide) h2 hg
    simp [h1, h2, hg]
  by_cases h3 : startsWithStr d "VPUX" = true
  · have hg : startsWithStr d "GPU" = false := by
      by_contra hg
      rw [Bool.not_eq_false] at hg
      exact startsWithStr_excl d 'V' 'G' _ _ (by decide) h3 hg
    simp [h1, h2, h3, hg]
  by_cases h4 : startsWithStr d "GPU" = true
  · by_cases h5 : containsSubstr (fn d) "iGPU" = true
    · simp [h1, h2, h3, h4, h5]
    · by_cases h6 : containsSubstr (fn d) "dGPU" = true
      · simp [h1, h2, h3, h4, h5, h6]
      · simp [h1, h2, h3, h4, h5, h6, Bool.not_eq_true]
  · simp [h1, h2, h3, h4, Bool.not_eq_true]

/-- C9 witness: a processor-prefixed device lands in the processor bucket. -/
theorem tier_classification_buckets_witness :
    "CPU.0" ∈ (tiersOf fnNoMarker ["CPU.0"]).CPU
    ∧ classifyOne fnNoMarker "CPU.0" = .cpu := by
  have h := tier_classification_buckets fnNoMarker ["CPU.0"] "CPU.0" (by decide)
  exact ⟨h.1.mpr (by decide), by decide⟩

/-- C10: the performance-counters flag stored in the returned workload
handle is true exactly when the merged configuration contains the
`PERF_COUNT` key, regardless of its value; in particular `PERF_COUNT=NO`,
which validation accepts, also turns the flag on. -/
theorem loadNetwork_perf_count_presence (stored config : ConfigType) :
    ((loadNetworkPerfFlag stored config).enablePerfCount = true ↔
      ∃ v, ("PERF_COUNT", v) ∈ mergeConfigs stored config)
    ∧ checkConfig [("PERF_COUNT", "NO")] = .ok ()
    ∧ (loadNetworkPerfFlag [] [("PERF_COUNT", "NO")]).enablePerfCount = true := by
  refine ⟨?_, rfl, rfl⟩
  simp only [loadNetworkPerfFlag, containsKey, List.any_eq_true]
  constructor
  · rintro ⟨⟨k, v⟩, hmem, hk⟩
    have hk' : k = "PERF_COUNT" := by simpa using hk
    subst hk'
    exact ⟨v, hmem⟩
  · rintro ⟨v, hv⟩
    exact ⟨("PERF_COUNT", v), hv, by simp⟩

end AutoPlugin
